import Mathlib

/-!
Shallow embedding of the MediBridge Bangalore API backend (src/main.py and
src/schemas.py) for verification of its specification.

Conventions of the embedding:
* Python floats are modelled as exact rationals (ℚ); every constant the
  claims touch (0.9, 1.1, 0.05, the sample costs) is an exact decimal.
* A MongoDB collection is `Option (List (Nat × α))`: `none` is an absent
  collection, the `Nat` stands in for the ObjectId of a stored record;
  ids are generated as successive record counts.
* Pydantic models become structures; `Literal[...]` enum fields and datetime
  fields are carried as plain `String`/`Nat` values (their values never
  influence the claims).  Defaulted fields keep their schema defaults.
* Optional query parameters are `Option String`; Python truthiness of a
  string parameter (`if q:`) is `strTruthy`, false for `none` and `""`.
-/

namespace MediBridge

/-! ### Domain schemas (src/schemas.py) -/

/-- `Hospital` of src/schemas.py.  `type` is the Literal
`multi-specialty|specialty|clinic` carried as a string. -/
structure Hospital where
  name : String
  type : String := "multi-specialty"
  address : String
  city : String := "Bengaluru"
  state : String := "Karnataka"
  country : String := "India"
  accreditation : Option String := none
  specialties : List String := []
  rating : ℚ := 4.5
  reviews_count : Nat := 0
  latitude : Option ℚ := none
  longitude : Option ℚ := none
  emergency_helpline : Option String := none
  website : Option String := none
  images : List String := []
deriving DecidableEq

/-- `Doctor` of src/schemas.py. -/
structure Doctor where
  name : String
  hospital_id : String
  specialty : String
  experience_years : Nat := 5
  rating : ℚ := 4.6
  languages : List String := ["en", "hi", "kn"]
  credentials : List String := []
  bio : Option String := none
  consultation_fee : ℚ := 1000.0
deriving DecidableEq

/-- `Treatment` of src/schemas.py; `category` is the closed Literal enum
carried as a string. -/
structure Treatment where
  name : String
  category : String := "general"
  description : Option String := none
  average_cost_inr_min : ℚ
  average_cost_inr_max : ℚ
  typical_stay_days : Nat := 3
  success_rate : Option ℚ := none
  hospitals : List String := []
deriving DecidableEq

/-- `Appointment` of src/schemas.py. -/
structure Appointment where
  patient_id : String
  doctor_id : String
  hospital_id : String
  datetime_iso : String
  type : String := "in_person"
  status : String := "pending"
  notes : Option String := none
deriving DecidableEq

/-- `TravelRequest` of src/schemas.py; the `travel_dates` dict is carried as
an association list. -/
structure TravelRequest where
  patient_id : String
  services : List String := ["visa_guidance", "airport_pickup", "accommodation"]
  travel_dates : List (String × Option String) := [("arrival", none), ("departure", none)]
  passengers : Nat := 1
  budget_inr : Option ℚ := none
  notes : Option String := none
deriving DecidableEq

/-- `Document` of src/schemas.py. -/
structure Document where
  patient_id : String
  filename : String
  content_type : String
  encrypted_b64 : String
  size_bytes : Nat
deriving DecidableEq

/-- `ChatMessage` of src/schemas.py. -/
structure ChatMessage where
  room_id : String
  sender_id : String
  sender_role : String := "patient"
  content : String
  type : String := "text"
deriving DecidableEq

/-- `Review` of src/schemas.py. -/
structure Review where
  patient_id : String
  hospital_id : Option String := none
  doctor_id : Option String := none
  rating : ℚ
  title : Option String := none
  comment : Option String := none
deriving DecidableEq

/-- `AnalyticsEvent` of src/schemas.py; the datetime `ts` is an opaque
timestamp carried as a `Nat`. -/
structure AnalyticsEvent where
  user_id : Option String := none
  event : String
  properties : List (String × String) := []
  ts : Nat
deriving DecidableEq

/-! ### Record store (modelled from the spec) -/

/-- The document database state: one collection per entity the endpoints of
src/main.py write or read, each named as the code names it.  `none` is an
absent collection (never yet created). -/
structure Store where
  hospital : Option (List (Nat × Hospital)) := none
  doctor : Option (List (Nat × Doctor)) := none
  treatment : Option (List (Nat × Treatment)) := none
  review : Option (List (Nat × Review)) := none
  appointment : Option (List (Nat × Appointment)) := none
  travelrequest : Option (List (Nat × TravelRequest)) := none
  chatmessage : Option (List (Nat × ChatMessage)) := none
  document : Option (List (Nat × Document)) := none
  analyticsevent : Option (List (Nat × AnalyticsEvent)) := none
deriving DecidableEq

/-- Modelled from the spec: `create_document(collection, data)` of
database.py (that file is not under src/; spec §4.1: "insert(collection,
record) -> id ... On successful insert, returns a newly generated
identifier").  Inserting creates the collection when absent and appends the
record; the newly generated identifier is modelled as the record count. -/
def create_document {α : Type} (c : Option (List (Nat × α))) (x : α) :
    Option (List (Nat × α)) × Nat :=
  let l := c.getD []
  (some (l ++ [(l.length, x)]), l.length)

/-- Modelled from the spec: `get_documents(collection, filter_dict, limit)`
of database.py (not under src/; spec §4.1: "query(collection, filter,
limit?) -> sequence of records ... returns matching records in storage
order").  The filter dict is rendered by each caller as a predicate: an
exact-match entry as field equality, a `$regex`+`i` entry as
case-insensitive substring match, a `$in` entry as membership (spec §4.1:
"exact-match or substring/case-insensitive pattern or set-membership
constraint").  Calls in src/main.py never pass a limit.  Querying an absent
collection yields no records. -/
def get_documents {α : Type} (c : Option (List (Nat × α))) (filt : Nat × α → Bool) :
    List (Nat × α) :=
  (c.getD []).filter filt

/-- Python truthiness of an optional string parameter (`if q:` in
src/main.py): false for an absent parameter and for the empty string. -/
def strTruthy : Option String → Bool
  | none => false
  | some s => !s.isEmpty

/-- `listHasSub pat l` is true iff `pat` occurs in `l` as a contiguous
sublist; with both sides lower-cased this renders the `$regex`/`i`
name constraint of `list_hospitals` for a pattern without metacharacters
(spec §4.1 reads the constraint as case-insensitive substring match). -/
def listHasSub (pat : List Char) : List Char → Bool
  | [] => pat.isEmpty
  | c :: rest => pat.isPrefixOf (c :: rest) || listHasSub pat rest

/-- Case-insensitive substring test used for the `q` filter of
`list_hospitals` (the `{"$regex": q, "$options": "i"}` constraint). -/
def ciContains (hay pat : String) : Bool :=
  listHasSub pat.toLower.data hay.toLower.data

/-- The `{"id": ...}` body every create endpoint of src/main.py returns. -/
structure IdResponse where
  id : String
deriving DecidableEq

/-! ### Directory endpoints (src/main.py) -/

/-- `list_hospitals` (src/main.py lines 98-109): optional `q` adds a
case-insensitive name-substring constraint, optional `specialty` a
`$in`-membership constraint on `specialties`; each returned record carries
its internal identifier as the public string `id` (the `h["id"] =
str(h.pop("_id"))` loop), modelled as the `String` component of the pair. -/
def list_hospitals (st : Store) (q specialty : Option String) : List (String × Hospital) :=
  let filt : Nat × Hospital → Bool := fun p =>
    (!strTruthy q || ciContains p.2.name (q.getD "")) &&
    (!strTruthy specialty || p.2.specialties.contains (specialty.getD ""))
  (get_documents st.hospital filt).map (fun p => (toString p.1, p.2))

/-- `create_hospital` (src/main.py lines 111-114). -/
def create_hospital (st : Store) (payload : Hospital) : Store × IdResponse :=
  let r := create_document st.hospital payload
  ({ st with hospital := r.1 }, ⟨toString r.2⟩)

/-- `list_doctors` (src/main.py lines 116-127): exact-match filters on
`hospital_id` and `specialty`. -/
def list_doctors (st : Store) (hospital_id specialty : Option String) :
    List (String × Doctor) :=
  let filt : Nat × Doctor → Bool := fun p =>
    (!strTruthy hospital_id || p.2.hospital_id == hospital_id.getD "") &&
    (!strTruthy specialty || p.2.specialty == specialty.getD "")
  (get_documents st.doctor filt).map (fun p => (toString p.1, p.2))

/-- `create_doctor` (src/main.py lines 129-132). -/
def create_doctor (st : Store) (payload : Doctor) : Store × IdResponse :=
  let r := create_document st.doctor payload
  ({ st with doctor := r.1 }, ⟨toString r.2⟩)

/-- `list_treatments` (src/main.py lines 134-143): exact-match filter on
`category`. -/
def list_treatments (st : Store) (category : Option String) : List (String × Treatment) :=
  let filt : Nat × Treatment → Bool := fun p =>
    !strTruthy category || p.2.category == category.getD ""
  (get_documents st.treatment filt).map (fun p => (toString p.1, p.2))

/-- `create_treatment` (src/main.py lines 145-148). -/
def create_treatment (st : Store) (payload : Treatment) : Store × IdResponse :=
  let r := create_document st.treatment payload
  ({ st with treatment := r.1 }, ⟨toString r.2⟩)

/-- `create_review` (src/main.py lines 215-218). -/
def create_review (st : Store) (payload : Review) : Store × IdResponse :=
  let r := create_document st.review payload
  ({ st with review := r.1 }, ⟨toString r.2⟩)

/-- `list_reviews` (src/main.py lines 220-231): exact-match filters on
`hospital_id` and `doctor_id` (both stored as optional fields, so a match
requires the stored field to be present with that value). -/
def list_reviews (st : Store) (hospital_id doctor_id : Option String) :
    List (String × Review) :=
  let filt : Nat × Review → Bool := fun p =>
    (!strTruthy hospital_id || p.2.hospital_id == some (hospital_id.getD "")) &&
    (!strTruthy doctor_id || p.2.doctor_id == some (doctor_id.getD ""))
  (get_documents st.review filt).map (fun p => (toString p.1, p.2))

/-- `create_appointment` (src/main.py lines 182-185). -/
def create_appointment (st : Store) (payload : Appointment) : Store × IdResponse :=
  let r := create_document st.appointment payload
  ({ st with appointment := r.1 }, ⟨toString r.2⟩)

/-- `create_travel_request` (src/main.py lines 188-191). -/
def create_travel_request (st : Store) (payload : TravelRequest) : Store × IdResponse :=
  let r := create_document st.travelrequest payload
  ({ st with travelrequest := r.1 }, ⟨toString r.2⟩)

/-- `send_message` (src/main.py lines 194-197). -/
def send_message (st : Store) (payload : ChatMessage) : Store × IdResponse :=
  let r := create_document st.chatmessage payload
  ({ st with chatmessage := r.1 }, ⟨toString r.2⟩)

/-- `track_event` (src/main.py lines 234-237). -/
def track_event (st : Store) (payload : AnalyticsEvent) : Store × IdResponse :=
  let r := create_document st.analyticsevent payload
  ({ st with analyticsevent := r.1 }, ⟨toString r.2⟩)

/-! ### Recommendation and cost estimator (src/main.py lines 150-179) -/

/-- `RecommendRequest` of src/main.py. -/
structure RecommendRequest where
  treatment_category : String
  preference : Option String := none
  comorbidities : List String := []
deriving DecidableEq

/-- `RecommendResponse` of src/main.py; the `estimated_cost_inr` dict
`{"min": ..., "max": ...}` is carried as the two fields
`estimated_cost_inr_min` and `estimated_cost_inr_max`. -/
structure RecommendResponse where
  recommended_treatments : List String
  estimated_cost_inr_min : ℚ
  estimated_cost_inr_max : ℚ
  suggested_hospitals : List String
deriving DecidableEq

/-- `HTTPException(status_code, detail)` raised by `recommend`. -/
structure HTTPException where
  status_code : Nat
  detail : String
deriving DecidableEq

/-- Python `round(x, 2)` of src/main.py line 177, on exact rationals:
rounding to the nearest hundredth.  (Python rounds binary floats half to
even; every value the claims evaluate is an exact hundredth, away from any
half-way point, where the two conventions agree.) -/
def round2 (x : ℚ) : ℚ :=
  ((round (x * 100) : ℤ) : ℚ) / 100

/-- The adjustment factor of `recommend` (src/main.py lines 168-173):
base 1.0, replaced by 0.9 for preference `cost` and 1.1 for `success`
(any other or absent preference keeps 1.0), then 0.05 added per
comorbidity tag. -/
def adj_factor (preference : Option String) (comorbidities : List String) : ℚ :=
  let adj : ℚ :=
    if preference = some "cost" then 0.9
    else if preference = some "success" then 1.1
    else 1.0
  adj + 0.05 * (comorbidities.length : ℚ)

/-- `recommend` (src/main.py lines 161-179): fetch the treatments of the
requested category (404 when none), fold `min` over their minimum costs and
`max` over their maximum costs (the schema makes both cost fields required,
so the Python `.get(..., 0)` default never fires), scale both by the
adjustment factor, round to 2 decimals, and suggest the first 5 treatment
and hospital names. -/
def recommend (st : Store) (req : RecommendRequest) :
    Except HTTPException RecommendResponse :=
  let treatments := get_documents st.treatment (fun p => p.2.category == req.treatment_category)
  match treatments with
  | [] => Except.error ⟨404, "No treatments found for category"⟩
  | t :: ts =>
    let est_min := ts.foldl (fun m p => min m p.2.average_cost_inr_min) t.2.average_cost_inr_min
    let est_max := ts.foldl (fun m p => max m p.2.average_cost_inr_max) t.2.average_cost_inr_max
    let adj := adj_factor req.preference req.comorbidities
    let hospitals := get_documents st.hospital (fun p => p.2.specialties.contains req.treatment_category)
    Except.ok
      { recommended_treatments := ((t :: ts).map (fun p => p.2.name)).take 5
        estimated_cost_inr_min := round2 (est_min * adj)
        estimated_cost_inr_max := round2 (est_max * adj)
        suggested_hospitals := (hospitals.map (fun p => p.2.name)).take 5 }

/-! ### Startup seeding (src/main.py lines 48-95) -/

/-- The `"hospital" not in db.list_collection_names() or
db.hospital.count_documents({}) == 0` test of `seed_sample`: an absent or
empty collection. -/
def collectionMissingOrEmpty {α : Type} : Option (List (Nat × α)) → Bool
  | none => true
  | some l => l.isEmpty

/-- First sample hospital seeded by `seed_sample` (src/main.py lines
54-67). -/
def narayana_hospital : Hospital :=
  { name := "Narayana Health City"
    type := "multi-specialty"
    address := "Bommasandra, Bengaluru"
    city := "Bengaluru"
    state := "Karnataka"
    country := "India"
    accreditation := some "NABH/JCI"
    specialties := ["cardiac", "orthopedic", "oncology", "neuro"]
    rating := 4.6
    emergency_helpline := some "1800-123-4567"
    website := some "https://www.narayanahealth.org/"
    images := [] }

/-- Second sample hospital seeded by `seed_sample` (src/main.py lines
68-81). -/
def manipal_hospital : Hospital :=
  { name := "Manipal Hospital Old Airport Road"
    type := "multi-specialty"
    address := "HAL Old Airport Rd, Bengaluru"
    city := "Bengaluru"
    state := "Karnataka"
    country := "India"
    accreditation := some "NABH"
    specialties := ["cardiac", "fertility", "orthopedic", "dental"]
    rating := 4.5
    emergency_helpline := some "080-2222-3333"
    website := some "https://www.manipalhospitals.com/"
    images := [] }

/-- First sample treatment seeded by `seed_sample` (src/main.py lines
84-87). -/
def cabg_treatment : Treatment :=
  { name := "CABG - Coronary Bypass"
    category := "cardiac"
    average_cost_inr_min := 250000
    average_cost_inr_max := 450000
    typical_stay_days := 7
    success_rate := some 95.0 }

/-- Second sample treatment seeded by `seed_sample` (src/main.py lines
88-91). -/
def knee_treatment : Treatment :=
  { name := "Total Knee Replacement"
    category := "orthopedic"
    average_cost_inr_min := 180000
    average_cost_inr_max := 350000
    typical_stay_days := 5 }

/-- Third sample treatment seeded by `seed_sample` (src/main.py lines
92-95). -/
def dental_treatment : Treatment :=
  { name := "Dental Implants"
    category := "dental"
    average_cost_inr_min := 25000
    average_cost_inr_max := 60000
    typical_stay_days := 1 }

/-- `seed_sample` (src/main.py lines 48-95): on startup, insert the two
sample hospitals when the hospital collection is absent or empty, then the
three sample treatments when the treatment collection is absent or empty.
(The `db is None` guard is outside the model: the store is present.) -/
def seed_sample (st : Store) : Store :=
  let st1 :=
    if collectionMissingOrEmpty st.hospital then
      { st with hospital :=
          (create_document (create_document st.hospital narayana_hospital).1 manipal_hospital).1 }
    else st
  if collectionMissingOrEmpty st1.treatment then
    { st1 with treatment :=
        (create_document (create_document (create_document st1.treatment cabg_treatment).1
          knee_treatment).1 dental_treatment).1 }
  else st1

/-! ### Base64 (the `base64` stdlib calls of src/main.py lines 200-212) -/

/-- The standard base64 alphabet, index 0 to 63. -/
def b64chars : List Char :=
  "ABCDEFGHIJKLMNOPQRSTUVWXYZabcdefghijklmnopqrstuvwxyz0123456789+/".toList

/-- The base64 character of a 6-bit value. -/
def b64enc (n : Nat) : Char := b64chars.getD n 'A'

/-- The 6-bit value of a base64 character (0 for a character outside the
alphabet; decoding only ever sees alphabet characters here). -/
def b64dec (c : Char) : Nat :=
  if 'A' ≤ c ∧ c ≤ 'Z' then c.toNat - 'A'.toNat
  else if 'a' ≤ c ∧ c ≤ 'z' then c.toNat - 'a'.toNat + 26
  else if '0' ≤ c ∧ c ≤ '9' then c.toNat - '0'.toNat + 52
  else if c = '+' then 62
  else if c = '/' then 63
  else 0

/-- `base64.b64encode` on a byte list (each entry < 256): each 3-byte group
becomes 4 alphabet characters; a trailing 1- or 2-byte group is padded with
`=`. -/
def b64encode : List Nat → List Char
  | [] => []
  | [a] => [b64enc (a / 4), b64enc (a % 4 * 16), '=', '=']
  | [a, b] => [b64enc (a / 4), b64enc (a % 4 * 16 + b / 16), b64enc (b % 16 * 4), '=']
  | a :: b :: c :: rest =>
    b64enc (a / 4) :: b64enc (a % 4 * 16 + b / 16) :: b64enc (b % 16 * 4 + c / 64) ::
      b64enc (c % 64) :: b64encode rest

/-- `base64.b64decode` on a well-formed base64 character list: each 4-character
group yields 3 bytes, except a final group padded with `=` which yields 1 or
2 bytes. -/
def b64decode : List Char → List Nat
  | c1 :: c2 :: c3 :: c4 :: rest =>
    if rest = [] ∧ c3 = '=' then
      [b64dec c1 * 4 + b64dec c2 / 16]
    else if rest = [] ∧ c4 = '=' then
      [b64dec c1 * 4 + b64dec c2 / 16, b64dec c2 % 16 * 16 + b64dec c3 / 4]
    else
      (b64dec c1 * 4 + b64dec c2 / 16) :: (b64dec c2 % 16 * 16 + b64dec c3 / 4) ::
        (b64dec c3 % 4 * 64 + b64dec c4) :: b64decode rest
  | _ => []

/-- `upload_document` (src/main.py lines 200-212): the file content (a byte
list) is base64-encoded into `encrypted_b64`, its length stored as
`size_bytes`, the content type defaulted to `application/octet-stream` when
absent or empty (Python `file.content_type or ...`), and the record inserted
into the `document` collection; the response is `{"id": ...}`. -/
def upload_document (st : Store) (patient_id filename : String)
    (content_type : Option String) (content : List Nat) : Store × IdResponse :=
  let doc : Document :=
    { patient_id := patient_id
      filename := filename
      content_type := if strTruthy content_type then content_type.getD "" else "application/octet-stream"
      encrypted_b64 := String.mk (b64encode content)
      size_bytes := content.length }
  let r := create_document st.document doc
  ({ st with document := r.1 }, ⟨toString r.2⟩)

/-! ### WhatsApp deep link (src/main.py lines 244-250) -/

/-- Uppercase hexadecimal digit of a value below 16. -/
def hexDigit (n : Nat) : Char := "0123456789ABCDEF".toList.getD n '0'

/-- The UTF-8 bytes of a code point (standard UTF-8 encoding, as Python
encodes a character before percent-encoding it). -/
def utf8bytes (n : Nat) : List Nat :=
  if n < 128 then [n]
  else if n < 2048 then [192 + n / 64, 128 + n % 64]
  else if n < 65536 then [224 + n / 4096, 128 + n / 64 % 64, 128 + n % 64]
  else [240 + n / 262144, 128 + n / 4096 % 64, 128 + n / 64 % 64, 128 + n % 64]

/-- `urllib.parse.quote_plus` on one character (as `urlencode` applies it
with an empty safe set): ASCII alphanumerics and `_ . - ~` kept, space
becomes `+`, anything else percent-encoded byte by byte in uppercase hex. -/
def quote_plus_char (c : Char) : List Char :=
  if c.isAlphanum ∧ c.toNat < 128 then [c]
  else if c ∈ ['_', '.', '-', '~'] then [c]
  else if c = ' ' then ['+']
  else (utf8bytes c.toNat).flatMap (fun b => ['%', hexDigit (b / 16), hexDigit (b % 16)])

/-- `urllib.parse.quote_plus` on a string. -/
def quote_plus (s : String) : String :=
  String.mk (s.data.flatMap quote_plus_char)

/-- `urlencode({"text": t})` of src/main.py line 249. -/
def urlencode_text (t : String) : String :=
  "text=" ++ quote_plus t

/-- `whatsapp_link` (src/main.py lines 244-250): the base URL is
`https://wa.me/` followed by the phone number with every `+` removed
(Python `phone_e164.replace("+", "")`); a non-empty `text` (Python
truthiness) appends `?` and the urlencoded text. -/
def whatsapp_link (phone_e164 : String) (text : Option String) : String :=
  let base := "https://wa.me/" ++ String.mk (phone_e164.data.filter (fun c => c ≠ '+'))
  if strTruthy text then base ++ "?" ++ urlencode_text (text.getD "") else base

/-- The spec's words for the C4 phone rule, for comparison with
`whatsapp_link`: "strips a leading `+` from a phone number" — only a
leading `+` is removed. -/
def lead_plus_stripped (s : String) : String :=
  match s.data with
  | '+' :: rest => String.mk rest
  | _ => s

/-! ### Concrete records used to evaluate the theorems -/

/-- A cardiac treatment with cost range 100-200. -/
def t100_200 : Treatment :=
  { name := "T1", category := "cardiac", average_cost_inr_min := 100, average_cost_inr_max := 200 }

/-- A cardiac treatment with cost range 150-300. -/
def t150_300 : Treatment :=
  { name := "T2", category := "cardiac", average_cost_inr_min := 150, average_cost_inr_max := 300 }

/-- A store whose cardiac category holds exactly the two treatments of the
spec's cost example. -/
def two_cardiac_store : Store :=
  { treatment := some [(0, t100_200), (1, t150_300)] }

/-- A store with a single cardiac treatment. -/
def one_cardiac_store : Store :=
  { treatment := some [(0, t100_200)] }

/-- A sample hospital record. -/
def apollo_hospital : Hospital :=
  { name := "Apollo Hospital", address := "Bannerghatta Rd", specialties := ["cardiac"] }

/-- A store holding only `apollo_hospital`. -/
def apollo_store : Store :=
  { hospital := some [(0, apollo_hospital)] }

/-! ## Theorems -/

/-- C3: `recommend` fails with the 404 `HTTPException` exactly when no stored
treatment matches the requested category, and succeeds (with no partial
response possible: the result type is `Except`) exactly when at least one
matches. -/
theorem recommend_not_found_iff (st : Store) (req : RecommendRequest) :
    (recommend st req = Except.error ⟨404, "No treatments found for category"⟩ ↔
      get_documents st.treatment (fun p => p.2.category == req.treatment_category) = []) ∧
    ((∃ r, recommend st req = Except.ok r) ↔
      get_documents st.treatment (fun p => p.2.category == req.treatment_category) ≠ []) := by
  cases h : get_documents st.treatment (fun p => p.2.category == req.treatment_category) with
  | nil => simp [recommend, h]
  | cons t ts => simp [recommend, h]

/-- C10: a list filter parameter passed as the empty string is treated as
absent (Python truthiness of `if q:`): for each of the four list endpoints,
each filter parameter given as `""` yields the same result as omitting it. -/
theorem empty_filter_param_ignored :
    (∀ st sp, list_hospitals st (some "") sp = list_hospitals st none sp) ∧
    (∀ st q, list_hospitals st q (some "") = list_hospitals st q none) ∧
    (∀ st sp, list_doctors st (some "") sp = list_doctors st none sp) ∧
    (∀ st hid, list_doctors st hid (some "") = list_doctors st hid none) ∧
    (∀ st, list_treatments st (some "") = list_treatments st none) ∧
    (∀ st did, list_reviews st (some "") did = list_reviews st none did) ∧
    (∀ st hid, list_reviews st hid (some "") = list_reviews st hid none) :=
  ⟨fun _ _ => rfl, fun _ _ => rfl, fun _ _ => rfl, fun _ _ => rfl, fun _ => rfl,
   fun _ _ => rfl, fun _ _ => rfl⟩

/-- C6: filtering hospitals by specialty `"cardiac"` returns exactly the
stored hospitals whose `specialties` list has `"cardiac"` as an element
(exact, case-sensitive membership — the `$in` constraint), each with its id
attached. -/
theorem list_hospitals_specialty_exact (st : Store) (x : String × Hospital) :
    x ∈ list_hospitals st none (some "cardiac") ↔
      ∃ p, p ∈ st.hospital.getD [] ∧ x = (toString p.1, p.2) ∧
        "cardiac" ∈ p.2.specialties := by
  have hce : ("cardiac" : String).isEmpty = false := by decide
  simp only [list_hospitals, get_documents, strTruthy, List.mem_map, List.mem_filter]
  constructor
  · rintro ⟨p, ⟨hp, hfilt⟩, rfl⟩
    refine ⟨p, hp, rfl, ?_⟩
    simpa [hce, List.contains, List.elem_iff] using hfilt
  · rintro ⟨p, hp, rfl, hmem⟩
    exact ⟨p, ⟨hp, by simpa [hce, List.contains, List.elem_iff] using hmem⟩, rfl⟩

/-- C9: every record a list endpoint returns is a stored record of its
collection with the internal identifier rendered as the public string `id`
(the `String` component) and every other field unchanged (the record
component is the stored record itself); and every create endpoint returns
exactly `{id}` for the newly inserted record's identifier. -/
theorem id_field_contract :
    (∀ st q sp x, x ∈ list_hospitals st q sp →
      ∃ p, p ∈ st.hospital.getD [] ∧ x.1 = toString p.1 ∧ x.2 = p.2) ∧
    (∀ st hid sp x, x ∈ list_doctors st hid sp →
      ∃ p, p ∈ st.doctor.getD [] ∧ x.1 = toString p.1 ∧ x.2 = p.2) ∧
    (∀ st cat x, x ∈ list_treatments st cat →
      ∃ p, p ∈ st.treatment.getD [] ∧ x.1 = toString p.1 ∧ x.2 = p.2) ∧
    (∀ st hid did x, x ∈ list_reviews st hid did →
      ∃ p, p ∈ st.review.getD [] ∧ x.1 = toString p.1 ∧ x.2 = p.2) ∧
    (∀ st payload, ∃ i, create_hospital st payload =
      ({ st with hospital := some (st.hospital.getD [] ++ [(i, payload)]) }, ⟨toString i⟩)) ∧
    (∀ st payload, ∃ i, create_doctor st payload =
      ({ st with doctor := some (st.doctor.getD [] ++ [(i, payload)]) }, ⟨toString i⟩)) ∧
    (∀ st payload, ∃ i, create_treatment st payload =
      ({ st with treatment := some (st.treatment.getD [] ++ [(i, payload)]) }, ⟨toString i⟩)) ∧
    (∀ st payload, ∃ i, create_review st payload =
      ({ st with review := some (st.review.getD [] ++ [(i, payload)]) }, ⟨toString i⟩)) ∧
    (∀ st payload, ∃ i, create_appointment st payload =
      ({ st with appointment := some (st.appointment.getD [] ++ [(i, payload)]) }, ⟨toString i⟩)) ∧
    (∀ st payload, ∃ i, create_travel_request st payload =
      ({ st with travelrequest := some (st.travelrequest.getD [] ++ [(i, payload)]) }, ⟨toString i⟩)) ∧
    (∀ st payload, ∃ i, send_message st payload =
      ({ st with chatmessage := some (st.chatmessage.getD [] ++ [(i, payload)]) }, ⟨toString i⟩)) ∧
    (∀ st payload, ∃ i, track_event st payload =
      ({ st with analyticsevent := some (st.analyticsevent.getD [] ++ [(i, payload)]) }, ⟨toString i⟩)) ∧
    (∀ st pid fn (ct : Option String) (content : List Nat),
      ∃ i : Nat, (upload_document st pid fn ct content).2 = ⟨toString i⟩) := by
  refine ⟨?_, ?_, ?_, ?_,
    fun st p => ⟨(st.hospital.getD []).length, rfl⟩,
    fun st p => ⟨(st.doctor.getD []).length, rfl⟩,
    fun st p => ⟨(st.treatment.getD []).length, rfl⟩,
    fun st p => ⟨(st.review.getD []).length, rfl⟩,
    fun st p => ⟨(st.appointment.getD []).length, rfl⟩,
    fun st p => ⟨(st.travelrequest.getD []).length, rfl⟩,
    fun st p => ⟨(st.chatmessage.getD []).length, rfl⟩,
    fun st p => ⟨(st.analyticsevent.getD []).length, rfl⟩,
    fun st pid fn ct content => ⟨(st.document.getD []).length, rfl⟩⟩
  · intro st q sp x hx
    simp only [list_hospitals, get_documents, List.mem_map, List.mem_filter] at hx
    obtain ⟨p, ⟨hp, _⟩, rfl⟩ := hx
    exact ⟨p, hp, rfl, rfl⟩
  · intro st hid sp x hx
    simp only [list_doctors, get_documents, List.mem_map, List.mem_filter] at hx
    obtain ⟨p, ⟨hp, _⟩, rfl⟩ := hx
    exact ⟨p, hp, rfl, rfl⟩
  · intro st cat x hx
    simp only [list_treatments, get_documents, List.mem_map, List.mem_filter] at hx
    obtain ⟨p, ⟨hp, _⟩, rfl⟩ := hx
    exact ⟨p, hp, rfl, rfl⟩
  · intro st hid did x hx
    simp only [list_reviews, get_documents, List.mem_map, List.mem_filter] at hx
    obtain ⟨p, ⟨hp, _⟩, rfl⟩ := hx
    exact ⟨p, hp, rfl, rfl⟩

/-- `listHasSub` decides contiguous-sublist occurrence: `pat` occurs in `l`
iff `l` splits as `u ++ pat ++ v`. -/
theorem listHasSub_iff (pat l : List Char) :
    listHasSub pat l = true ↔ ∃ u v, l = u ++ pat ++ v := by
  induction l with
  | nil =>
    simp only [listHasSub, List.isEmpty_iff]
    constructor
    · rintro rfl
      exact ⟨[], [], rfl⟩
    · rintro ⟨u, v, huv⟩
      rcases List.append_eq_nil.mp (List.append_eq_nil.mp huv.symm).1 with ⟨-, h2⟩
      exact h2
  | cons c t ih =>
    simp only [listHasSub, Bool.or_eq_true, List.isPrefixOf_iff_prefix, ih]
    constructor
    · rintro (⟨w, hw⟩ | ⟨u, v, rfl⟩)
      · exact ⟨[], w, by simp [hw]⟩
      · exact ⟨c :: u, v, rfl⟩
    · rintro ⟨u, v, huv⟩
      cases u with
      | nil =>
        exact Or.inl ⟨v, by simpa using huv.symm⟩
      | cons x u' =>
        obtain ⟨rfl, ht⟩ : x = c ∧ t = u' ++ pat ++ v := by
          have := huv
          simp only [List.cons_append] at this
          exact ⟨(List.cons.injEq _ _ _ _ ▸ this).1.symm, (List.cons.injEq _ _ _ _ ▸ this).2⟩
        exact Or.inr ⟨u', v, ht⟩

/-- C5: for a non-empty query string `q`, `list_hospitals` with filter `q`
returns exactly the stored hospitals whose lower-cased name contains the
lower-cased `q` as a contiguous substring (case-insensitive substring match
on `name`), each with its id attached. -/
theorem list_hospitals_q_ci_substring (st : Store) (q : String) (x : String × Hospital)
    (hq : q ≠ "") :
    x ∈ list_hospitals st (some q) none ↔
      ∃ p, p ∈ st.hospital.getD [] ∧ x = (toString p.1, p.2) ∧
        ∃ u v, p.2.name.toLower.data = u ++ q.toLower.data ++ v := by
  have hqe : q.isEmpty = false := by
    cases h : q.isEmpty
    · rfl
    · exact absurd ((String.isEmpty_iff q).mp h) hq
  simp only [list_hospitals, get_documents, strTruthy, hqe, List.mem_map, List.mem_filter]
  constructor
  · rintro ⟨p, ⟨hp, hfilt⟩, rfl⟩
    refine ⟨p, hp, rfl, ?_⟩
    rw [← listHasSub_iff]
    simpa [ciContains] using hfilt
  · rintro ⟨p, hp, rfl, hsub⟩
    refine ⟨p, ⟨hp, ?_⟩, rfl⟩
    rw [← listHasSub_iff] at hsub
    simpa [ciContains] using hsub

/-- Evaluation of C5 at a concrete store and query: the record of
`apollo_store` is returned for the (upper-cased) query `"OLL"` and its name
indeed contains `"oll"`. -/
theorem list_hospitals_q_ci_substring_eval :
    ("OLL" : String) ≠ "" ∧
    ((("0", apollo_hospital) : String × Hospital) ∈ list_hospitals apollo_store (some "OLL") none ↔
      ∃ p, p ∈ apollo_store.hospital.getD [] ∧
        (("0", apollo_hospital) : String × Hospital) = (toString p.1, p.2) ∧
        ∃ u v, p.2.name.toLower.data = u ++ ("OLL" : String).toLower.data ++ v) :=
  ⟨by decide, list_hospitals_q_ci_substring apollo_store "OLL" ("0", apollo_hospital) (by decide)⟩

/-- C1, counterexample: on a store whose cardiac category holds exactly the
treatments with cost ranges 100-200 and 150-300, a recommend request with
preference `cost` and no comorbidities yields max = `round(max(200,300) *
0.9, 2)` = 270.0, not the 180.0 the spec's example states. -/
theorem recommend_cost_example_cex :
    recommend two_cardiac_store
        { treatment_category := "cardiac", preference := some "cost", comorbidities := [] } =
      Except.ok
        { recommended_treatments := ["T1", "T2"], estimated_cost_inr_min := 90,
          estimated_cost_inr_max := 270, suggested_hospitals := [] } ∧
    (270 : ℚ) ≠ 180 := by
  constructor
  · norm_num [recommend, get_documents, two_cardiac_store, t100_200, t150_300, adj_factor,
      round2, min_def, max_def, round_eq]
  · norm_num

/-- C1 as amended: when the requested category matches exactly two stored
treatments with cost ranges 100-200 and 150-300, preference `cost` and no
comorbidities give the estimated range min = min(100,150)*0.9 = 90.0 and
max = max(200,300)*0.9 = 270.0 (not 180.0). -/
theorem recommend_cost_example (st : Store) (cat : String) (i1 i2 : Nat) (t1 t2 : Treatment)
    (hfilter : get_documents st.treatment (fun p => p.2.category == cat) = [(i1, t1), (i2, t2)])
    (h1min : t1.average_cost_inr_min = 100) (h1max : t1.average_cost_inr_max = 200)
    (h2min : t2.average_cost_inr_min = 150) (h2max : t2.average_cost_inr_max = 300) :
    ∃ r, recommend st { treatment_category := cat, preference := some "cost", comorbidities := [] } =
        Except.ok r ∧
      r.estimated_cost_inr_min = 90 ∧ r.estimated_cost_inr_max = 270 := by
  simp only [recommend, hfilter]
  refine ⟨_, rfl, ?_, ?_⟩
  · simp only [List.foldl_cons, List.foldl_nil, h1min, h2min]
    norm_num [adj_factor, round2, min_def, round_eq]
  · simp only [List.foldl_cons, List.foldl_nil, h1max, h2max]
    norm_num [adj_factor, round2, max_def, round_eq]

/-- Evaluation of the amended C1 on the concrete two-treatment store. -/
theorem recommend_cost_example_eval :
    ∃ r, recommend two_cardiac_store
        { treatment_category := "cardiac", preference := some "cost", comorbidities := [] } =
        Except.ok r ∧
      r.estimated_cost_inr_min = 90 ∧ r.estimated_cost_inr_max = 270 :=
  recommend_cost_example two_cardiac_store "cardiac" 0 1 t100_200 t150_300
    (by simp [get_documents, two_cardiac_store, t100_200, t150_300]) rfl rfl rfl rfl

/-- C2: the adjustment factor of `recommend` is 0.9 for preference `cost`,
1.1 for `success`, 1.0 for `speed` or unset, plus 0.05 per comorbidity tag
added after the multiplicative step; `success` with two comorbidities gives
1.2; and any successful response applies the one factor identically inside
both rounded cost bounds. -/
theorem recommend_adjustment_factor (st : Store) (req : RecommendRequest)
    (r : RecommendResponse) (h : recommend st req = Except.ok r) :
    (∀ cs : List String, adj_factor (some "cost") cs = 0.9 + 0.05 * cs.length) ∧
    (∀ cs : List String, adj_factor (some "success") cs = 1.1 + 0.05 * cs.length) ∧
    (∀ cs : List String, adj_factor (some "speed") cs = 1.0 + 0.05 * cs.length) ∧
    (∀ cs : List String, adj_factor none cs = 1.0 + 0.05 * cs.length) ∧
    adj_factor (some "success") ["diabetes", "hypertension"] = 1.2 ∧
    ∃ m M : ℚ,
      r.estimated_cost_inr_min = round2 (m * adj_factor req.preference req.comorbidities) ∧
      r.estimated_cost_inr_max = round2 (M * adj_factor req.preference req.comorbidities) := by
  have e1 : ("success" : String) ≠ "cost" := by decide
  have e2 : ("speed" : String) ≠ "cost" := by decide
  have e3 : ("speed" : String) ≠ "success" := by decide
  have e4 : (none : Option String) ≠ some "cost" := by decide
  have e5 : (none : Option String) ≠ some "success" := by decide
  refine ⟨fun cs => by norm_num [adj_factor], fun cs => by norm_num [adj_factor, e1],
    fun cs => by norm_num [adj_factor, e2, e3], fun cs => by norm_num [adj_factor, e4, e5],
    by norm_num [adj_factor, e1], ?_⟩
  cases hl : get_documents st.treatment (fun p => p.2.category == req.treatment_category) with
  | nil => simp [recommend, hl] at h
  | cons t ts =>
    simp only [recommend, hl, Except.ok.injEq] at h
    exact ⟨_, _, by rw [← h], by rw [← h]⟩

/-- Evaluation of C2 at a concrete successful request (one cardiac
treatment, no preference, no comorbidities). -/
theorem recommend_adjustment_factor_eval :
    (∀ cs : List String, adj_factor (some "cost") cs = 0.9 + 0.05 * cs.length) ∧
    (∀ cs : List String, adj_factor (some "success") cs = 1.1 + 0.05 * cs.length) ∧
    (∀ cs : List String, adj_factor (some "speed") cs = 1.0 + 0.05 * cs.length) ∧
    (∀ cs : List String, adj_factor none cs = 1.0 + 0.05 * cs.length) ∧
    adj_factor (some "success") ["diabetes", "hypertension"] = 1.2 ∧
    ∃ m M : ℚ,
      (100 : ℚ) = round2 (m * adj_factor none []) ∧
      (200 : ℚ) = round2 (M * adj_factor none []) :=
  recommend_adjustment_factor one_cardiac_store
    { treatment_category := "cardiac", preference := none, comorbidities := [] }
    { recommended_treatments := ["T1"], estimated_cost_inr_min := 100,
      estimated_cost_inr_max := 200, suggested_hospitals := [] }
    (by
      have e4 : (none : Option String) ≠ some "cost" := by decide
      have e5 : (none : Option String) ≠ some "success" := by decide
      norm_num [recommend, get_documents, one_cardiac_store, t100_200, adj_factor,
        round2, min_def, max_def, round_eq, e4, e5])

/-- C4, counterexample: for the phone string `"1+2"` (no leading `+`),
`whatsapp_link` removes the interior `+` as well — it returns
`https://wa.me/12`, not the `https://wa.me/1+2` that stripping only a
leading `+` would give; and a supplied but empty text appends no `?text=`
part (Python `if text:`). -/
theorem whatsapp_link_lead_plus_cex :
    whatsapp_link "1+2" none ≠ "https://wa.me/" ++ lead_plus_stripped "1+2" ∧
    whatsapp_link "1" (some "") = "https://wa.me/1" :=
  ⟨by decide, by decide⟩

/-- C4 as amended: the WhatsApp link is `wa.me/` plus the phone number with
every `+` character removed (not only a leading one), followed, when a
non-empty text is supplied, by `?text=` and the percent-encoded text; the
example phone `+919876543210` with text `Hello` yields exactly
`https://wa.me/919876543210?text=Hello`, which ends with
`wa.me/919876543210?text=Hello`. -/
theorem whatsapp_link_spec (phone t : String) :
    (whatsapp_link phone none).data =
      "https://wa.me/".data ++ phone.data.filter (fun c => c ≠ '+') ∧
    (t ≠ "" →
      (whatsapp_link phone (some t)).data =
        "https://wa.me/".data ++ phone.data.filter (fun c => c ≠ '+') ++
          "?text=".data ++ (quote_plus t).data) ∧
    whatsapp_link "+919876543210" (some "Hello") = "https://wa.me/919876543210?text=Hello" ∧
    ("wa.me/919876543210?text=Hello".data.isSuffixOf
      (whatsapp_link "+919876543210" (some "Hello")).data) = true := by
  refine ⟨by simp [whatsapp_link, strTruthy], ?_, by decide, by decide⟩
  intro ht
  have hte : t.isEmpty = false := by
    cases h : t.isEmpty
    · rfl
    · exact absurd ((String.isEmpty_iff t).mp h) ht
  simp [whatsapp_link, strTruthy, hte, urlencode_text, quote_plus]

/-- Decoding inverts encoding on each 6-bit value. -/
theorem b64dec_b64enc {n : Nat} (h : n < 64) : b64dec (b64enc n) = n := by
  have : ∀ m : Fin 64, b64dec (b64enc m.val) = m.val := by decide
  exact this ⟨n, h⟩

/-- No alphabet character is the padding character `=`. -/
theorem b64enc_ne_pad {n : Nat} (h : n < 64) : b64enc n ≠ '=' := by
  have : ∀ m : Fin 64, b64enc m.val ≠ '=' := by decide
  exact this ⟨n, h⟩

/-- Base64 round trip: decoding the encoding of any byte list gives the
original bytes back. -/
theorem b64_roundtrip : ∀ l : List Nat, (∀ b ∈ l, b < 256) → b64decode (b64encode l) = l
  | [], _ => rfl
  | [a], h => by
    have ha : a < 256 := h a (by simp)
    have h1 : a / 4 < 64 := by omega
    have h2 : a % 4 * 16 < 64 := by omega
    simp only [b64encode, b64decode]
    rw [if_pos (by simp), b64dec_b64enc h1, b64dec_b64enc h2]
    simp only [List.cons.injEq, and_true]
    omega
  | [a, b], h => by
    have ha : a < 256 := h a (by simp)
    have hb : b < 256 := h b (by simp)
    have h1 : a / 4 < 64 := by omega
    have h2 : a % 4 * 16 + b / 16 < 64 := by omega
    have h3 : b % 16 * 4 < 64 := by omega
    simp only [b64encode, b64decode]
    rw [if_neg (fun hc => b64enc_ne_pad h3 hc.2), if_pos (by simp),
      b64dec_b64enc h1, b64dec_b64enc h2, b64dec_b64enc h3]
    simp only [List.cons.injEq, and_true]
    omega
  | a :: b :: c :: rest, h => by
    have ha : a < 256 := h a (by simp)
    have hb : b < 256 := h b (by simp)
    have hc : c < 256 := h c (by simp)
    have ih := b64_roundtrip rest (fun x hx => h x (by simp [hx]))
    have h1 : a / 4 < 64 := by omega
    have h2 : a % 4 * 16 + b / 16 < 64 := by omega
    have h3 : b % 16 * 4 + c / 64 < 64 := by omega
    have h4 : c % 64 < 64 := by omega
    simp only [b64encode, b64decode]
    rw [if_neg (fun hcon => b64enc_ne_pad h3 hcon.2),
      if_neg (fun hcon => b64enc_ne_pad h4 hcon.2),
      b64dec_b64enc h1, b64dec_b64enc h2, b64dec_b64enc h3, b64dec_b64enc h4, ih]
    simp only [List.cons.injEq, and_true]
    refine ⟨by omega, by omega, by omega⟩

/-- C7: uploading a byte list of length N appends to the document collection
a record whose `size_bytes` is N and whose `encrypted_b64` base64-decodes to
exactly the original bytes. -/
theorem upload_document_roundtrip (st : Store) (pid fn : String) (ct : Option String)
    (content : List Nat) (h : ∀ b ∈ content, b < 256) :
    ∃ (i : Nat) (d : Document),
      (upload_document st pid fn ct content).1.document = some (st.document.getD [] ++ [(i, d)]) ∧
      d.size_bytes = content.length ∧
      b64decode d.encrypted_b64.data = content := by
  refine ⟨(st.document.getD []).length, _, rfl, rfl, ?_⟩
  exact b64_roundtrip content h

/-- Evaluation of C7 on a concrete 4-byte upload. -/
theorem upload_document_roundtrip_eval :
    ∃ (i : Nat) (d : Document),
      (upload_document {} "p1" "scan.pdf" none [77, 101, 100, 105]).1.document =
        some (({} : Store).document.getD [] ++ [(i, d)]) ∧
      d.size_bytes = ([77, 101, 100, 105] : List Nat).length ∧
      b64decode d.encrypted_b64.data = [77, 101, 100, 105] :=
  upload_document_roundtrip {} "p1" "scan.pdf" none [77, 101, 100, 105] (by decide)

/-- An absent-or-empty collection holds no records. -/
theorem missingOrEmpty_getD {α : Type} {c : Option (List (Nat × α))}
    (h : collectionMissingOrEmpty c = true) : c.getD [] = [] := by
  cases c with
  | none => rfl
  | some l => simpa [collectionMissingOrEmpty, List.isEmpty_iff] using h

/-- A present non-empty collection is not missing-or-empty after seeding. -/
theorem missingOrEmpty_some_cons {α : Type} (p : Nat × α) (l : List (Nat × α)) :
    collectionMissingOrEmpty (some (p :: l)) = false := rfl

/-- C8: `seed_sample` inserts the two fixed sample hospitals iff the
hospital collection is absent or empty, and the three fixed sample
treatments iff the treatment collection is absent or empty; it touches no
other collection; when both collections are non-empty it leaves the store
unchanged; and seeding twice equals seeding once. -/
theorem seed_sample_spec (st : Store) :
    (collectionMissingOrEmpty st.hospital = true →
      (seed_sample st).hospital = some [(0, narayana_hospital), (1, manipal_hospital)]) ∧
    (collectionMissingOrEmpty st.hospital = false → (seed_sample st).hospital = st.hospital) ∧
    (collectionMissingOrEmpty st.treatment = true →
      (seed_sample st).treatment =
        some [(0, cabg_treatment), (1, knee_treatment), (2, dental_treatment)]) ∧
    (collectionMissingOrEmpty st.treatment = false → (seed_sample st).treatment = st.treatment) ∧
    (seed_sample st).doctor = st.doctor ∧
    (seed_sample st).review = st.review ∧
    (seed_sample st).appointment = st.appointment ∧
    (seed_sample st).travelrequest = st.travelrequest ∧
    (seed_sample st).chatmessage = st.chatmessage ∧
    (seed_sample st).document = st.document ∧
    (seed_sample st).analyticsevent = st.analyticsevent ∧
    (collectionMissingOrEmpty st.hospital = false →
      collectionMissingOrEmpty st.treatment = false → seed_sample st = st) ∧
    seed_sample (seed_sample st) = seed_sample st := by
  cases hh : collectionMissingOrEmpty st.hospital with
  | true =>
    cases ht : collectionMissingOrEmpty st.treatment with
    | true =>
      simp [seed_sample, hh, ht, create_document, missingOrEmpty_getD hh,
        missingOrEmpty_getD ht, missingOrEmpty_some_cons]
    | false =>
      simp [seed_sample, hh, ht, create_document, missingOrEmpty_getD hh,
        missingOrEmpty_some_cons]
  | false =>
    cases ht : collectionMissingOrEmpty st.treatment with
    | true =>
      simp [seed_sample, hh, ht, create_document, missingOrEmpty_getD ht,
        missingOrEmpty_some_cons]
    | false =>
      simp [seed_sample, hh, ht]

end MediBridge
